import Mathlib

/-!
Shallow embedding of `packaging/os/zypper_repository.py` (the Ansible
`zypper_repository` module).

The module shells out to the external `zypper` CLI.  We model an execution
environment as a function from command vectors to process results; the XML
parsing done by `xml.dom.minidom` (an external library) is modelled as an
abstract function from the raw stdout to the list of extracted repository
entries.  Python `None` is modelled by `Option`; a command-line argument is an
`Option String` because Python code may append `None` to an argument list.
Fatal aborts (`module.fail_json`, which terminates the process) are modelled
with `Except`; successful termination (`module.exit_json`) is an `Outcome`.
Every operation additionally returns the trace of external commands it
executed, in execution order.
-/

namespace ZyppRepo

/-- A single argument of an external command vector; `none` models Python's
`None`. -/
abbrev Arg := Option String

/-- An external command vector, e.g. `['/usr/bin/zypper', '-x', 'lr', ident]`. -/
abbrev Cmd := List Arg

/-- The external commands executed during a run, in order. -/
abbrev Trace := List Cmd

/-- Result of `module.run_command`: exit code, stdout, stderr. -/
structure CmdResult where
  rc : Int
  stdout : String
  stderr : String
deriving DecidableEq

/-- The external package manager: what each command invocation returns. -/
abbrev Env := Cmd → CmdResult

/-- One repository entry extracted from `zypper -x lr` XML output: the
attributes listed in `REPO_OPTS` plus the nested `url` element value.
`minidom.getAttribute` returns `""` for a missing attribute, so every field is
a plain string. -/
structure RepoEntry where
  «alias» : String
  name : String
  priority : String
  enabled : String
  autorefresh : String
  gpgcheck : String
  url : String
deriving DecidableEq

/-- `REPO_OPTS = ['alias', 'name', 'priority', 'enabled', 'autorefresh', 'gpgcheck']`. -/
def REPO_OPTS : List String :=
  ["alias", "name", "priority", "enabled", "autorefresh", "gpgcheck"]

/-- The keys of a parsed repo dictionary: `REPO_OPTS` plus `'url'`, in
insertion order. -/
def RepoEntry.keys : List String := REPO_OPTS ++ ["url"]

/-- `realrepo.items()`: key/value pairs of a parsed repo dictionary, in
insertion order. -/
def RepoEntry.items (r : RepoEntry) : List (String × String) :=
  [("alias", r.«alias»), ("name", r.name), ("priority", r.priority),
   ("enabled", r.enabled), ("autorefresh", r.autorefresh),
   ("gpgcheck", r.gpgcheck), ("url", r.url)]

/-- The `**kwargs` dictionary passed to `repo_exists`: string keys, values that
may be Python `None`. -/
abbrev Kwargs := List (String × Option String)

/-- `kwargs.get(k, None)`: `none` both when the key is absent and when it is
present with value `None`. -/
def kwGet (kw : Kwargs) (k : String) : Option String :=
  match kw.lookup k with
  | some v => v
  | none => none

/-- Python truthiness of an optional string: `None` and `''` are falsy. -/
def truthy : Option String → Bool
  | none => false
  | some s => !(s = "")

/-- Python `a or b` on optional strings. -/
def pyOr (a b : Option String) : Option String :=
  if truthy a then a else b

/-- Python `v or ""` where `v` is an optional string. -/
def orEmpty (v : Option String) : String := v.getD ""

/-- Python `s or t` on plain strings (only `''` is falsy). -/
def pyOrS (a b : String) : String := if a = "" then b else a

/-- Python `s.rstrip('/')`: remove every trailing `'/'`. -/
def rstripSlash (s : String) : String :=
  String.mk (List.reverse (List.dropWhile (fun c => c == '/') s.data.reverse))

/-- Python `s.endswith(t)` (a character-list model of `String.endsWith`). -/
def strEndsWith (s t : String) : Bool := t.data.isSuffixOf s.data

/-- Python `repo.endswith('.repo')`; only reached under a `repo and …` guard,
so the `none` case (which would raise in Python) is unreachable at call sites. -/
def endsRepo (r : Option String) : Bool := strEndsWith (r.getD "") ".repo"

/-- The query command `['/usr/bin/zypper', '-x', 'lr', ident]`. -/
def zypperLr (ident : String) : Cmd :=
  [some "/usr/bin/zypper", some "-x", some "lr", some ident]

/-- `" ".join(cmd)` (only ever applied to all-string command vectors). -/
def joinCmd (c : Cmd) : String :=
  String.intercalate " " (c.map (fun a => a.getD "None"))

/-- A `module.fail_json` payload: the message plus the optional keyword fields
used by this module (`zypper_exit_code`, `rc`, `stdout`, `stderr`); a field is
`none` when the corresponding key was not passed. -/
structure Failure where
  msg : String
  zypper_exit_code : Option Int
  rc : Option Int
  stdout : Option String
  stderr : Option String
deriving DecidableEq

/-- A `fail_json` payload carrying only a message. -/
def mkMsgFail (m : String) : Failure :=
  { msg := m, zypper_exit_code := none, rc := none, stdout := none, stderr := none }

/-- The abstract XML extraction: `minidom` (an external library) applied to the
stdout of `zypper -x lr`, yielding one entry per `<repo>` element with the
`REPO_OPTS` attributes and the nested `url` value. -/
abbrev Parse := String → List RepoEntry

/-- The failure payload built by `_parse_repos` for a non-whitelisted exit
code: `zypper_exit_code` always, `stderr`/`stdout` only when non-empty. -/
def parseReposFailure (cmd : Cmd) (r : CmdResult) : Failure :=
  { msg := "Failed to execute \x22" ++ joinCmd cmd ++ "\x22"
  , zypper_exit_code := some r.rc
  , rc := none
  , stdout := if r.stdout ≠ "" then some r.stdout else none
  , stderr := if r.stderr ≠ "" then some r.stderr else none }

/-- `_parse_repos(module, ident)`: run `zypper -x lr <ident>`; exit code 0
parses the XML, exit code 6 (`ZYPPER_EXIT_NO_REPOS`) is the empty list, any
other exit code is fatal. -/
def _parse_repos (env : Env) (parse : Parse) (ident : String) :
    Except Failure (List RepoEntry) × Trace :=
  let cmd := zypperLr ident
  let r := env cmd
  if r.rc = 0 then
    (Except.ok (parse r.stdout), [cmd])
  else if r.rc = 6 then
    (Except.ok [], [cmd])
  else
    (Except.error (parseReposFailure cmd r), [cmd])

/-- The inner `repo_changes(realrepo, repocmp)` of `repo_exists`: true when
some `repocmp` key is missing from `realrepo`, or when some attribute present
in both differs after `(v or "").rstrip("/")` normalisation on both sides. -/
def repo_changes (realrepo : RepoEntry) (repocmp : Kwargs) : Bool :=
  if repocmp.any (fun kv => !(RepoEntry.keys.contains kv.1)) then
    true
  else
    realrepo.items.any (fun kv =>
      (repocmp.lookup kv.1).isSome &&
        (rstripSlash (pyOrS kv.2 "") !=
          rstripSlash (orEmpty ((repocmp.lookup kv.1).getD none))))

/-- `name = kwargs.get('name', None) or kwargs.get('alias', None) or
kwargs.get('url', None)`: the identity token used to scope the query. -/
def resolveToken (kw : Kwargs) : Option String :=
  pyOr (kwGet kw "name") (pyOr (kwGet kw "alias") (kwGet kw "url"))

/-- Rendering of a parsed repo dictionary used in the ambiguous-match message
(models Python's `str()` of the dictionary). -/
def reprEntry (r : RepoEntry) : String :=
  "\x7b\x27alias\x27: \x27" ++ r.«alias» ++ "\x27, \x27name\x27: \x27" ++ r.name ++
  "\x27, \x27priority\x27: \x27" ++ r.priority ++ "\x27, \x27enabled\x27: \x27" ++ r.enabled ++
  "\x27, \x27autorefresh\x27: \x27" ++ r.autorefresh ++ "\x27, \x27gpgcheck\x27: \x27" ++ r.gpgcheck ++
  "\x27, \x27url\x27: \x27" ++ r.url ++ "\x27\x7d"

/-- Rendering of the full match list (models Python's `str()` of a list). -/
def reprRepos (rs : List RepoEntry) : String :=
  "[" ++ String.intercalate ", " (rs.map reprEntry) ++ "]"

/-- `'More than one repo matched "%s": "%s"' % (name, repos)`. -/
def moreThanOneMsg (ident : String) (repos : List RepoEntry) : String :=
  "More than one repo matched \x22" ++ ident ++ "\x22: \x22" ++ reprRepos repos ++ "\x22"

/-- `repo_exists(module, **kwargs)`: resolve the identity token, query if it is
truthy, and return `(exists, has_changes)`; exactly one match compares
attributes, zero matches is `(False, False)`, more than one match is fatal. -/
def repo_exists (env : Env) (parse : Parse) (kwargs : Kwargs) :
    Except Failure (Bool × Bool) × Trace :=
  let tok := resolveToken kwargs
  if truthy tok then
    match _parse_repos env parse (tok.getD "") with
    | (Except.error f, t) => (Except.error f, t)
    | (Except.ok repos, t) =>
      match repos with
      | [r] => (Except.ok (true, repo_changes r kwargs), t)
      | [] => (Except.ok (false, false), t)
      | _ => (Except.error (mkMsgFail (moreThanOneMsg (tok.getD "") repos)), t)
  else
    -- `repos = []` stays empty when the token is falsy: `(False, False)`.
    (Except.ok (false, false), [])

/-- The removal command: `cmd = ['/usr/bin/zypper', 'rr']`, then the alias if
truthy, else the repo URI. -/
def removeCmd (repo al : Option String) : Cmd :=
  let cmd := [some "/usr/bin/zypper", some "rr"]
  if truthy al then cmd ++ [al] else cmd ++ [repo]

/-- Modelled from the spec: `module.run_command(cmd, check_rc=True)` is part of
the host framework (`AnsibleModule`), which is not in this repository's source;
per the spec, strict-check mode treats any non-zero exit code as a fatal error
and propagates the exit code together with the command's stdout and stderr as
diagnostic context. -/
def checkRcFail (cmd : Cmd) (r : CmdResult) : Failure :=
  { msg := "Command failed: " ++ joinCmd cmd
  , zypper_exit_code := none
  , rc := some r.rc
  , stdout := some r.stdout
  , stderr := some r.stderr }

/-- `remove_repo(module, repo, alias)`: run `zypper rr <alias-or-repo>` with
`check_rc=True`; on success return `changed = (rc == 0)`. -/
def remove_repo (env : Env) (repo al : Option String) :
    Except Failure Bool × Trace :=
  let cmd := removeCmd repo al
  let r := env cmd
  if r.rc ≠ 0 then
    (Except.error (checkRcFail cmd r), [cmd])
  else
    (Except.ok (decide (r.rc = 0)), [cmd])

/-- The add command built by `modify_repo`:
`['/usr/bin/zypper', 'ar', '--check', '-t', 'plaindir']`, then `--name <descr>`
if the description is truthy, `--no-gpgcheck` and `--refresh` per the flags,
then the URI, then the alias unless the URI ends in `'.repo'`. -/
def addCmd (repo : String) (al description : Option String)
    (disable_gpg_check refresh : Bool) : Cmd :=
  let cmd := [some "/usr/bin/zypper", some "ar", some "--check", some "-t", some "plaindir"]
  let cmd := if truthy description then cmd ++ [some "--name", description] else cmd
  let cmd := if disable_gpg_check then cmd ++ [some "--no-gpgcheck"] else cmd
  let cmd := if refresh then cmd ++ [some "--refresh"] else cmd
  let cmd := cmd ++ [some repo]
  if strEndsWith repo ".repo" then cmd else cmd ++ [al]

/-- The add command before the conditional alias argument (through
`cmd.append(repo)`). -/
def addCmdBase (repo : String) (description : Option String)
    (disable_gpg_check refresh : Bool) : Cmd :=
  let cmd := [some "/usr/bin/zypper", some "ar", some "--check", some "-t", some "plaindir"]
  let cmd := if truthy description then cmd ++ [some "--name", description] else cmd
  let cmd := if disable_gpg_check then cmd ++ [some "--no-gpgcheck"] else cmd
  let cmd := if refresh then cmd ++ [some "--refresh"] else cmd
  cmd ++ [some repo]

/-- The failure payload of a failed add: `msg = stderr` if non-empty else
`stdout`, no other fields. -/
def runFail (r : CmdResult) : Failure :=
  mkMsgFail (if r.stderr ≠ "" then r.stderr else r.stdout)

/-- `modify_repo(module, repo, alias, description, disable_gpg_check, refresh,
remove_first)`: build the add command, run `remove_repo` first when
`remove_first`, then run the add command; exit code 0 is `changed = True`, any
other exit code is fatal with stderr (or stdout) as the message.  The
`(Except.ok true, [])` placeholder models the absence of the remove step. -/
def modify_repo (env : Env) (repo : String) (al description : Option String)
    (disable_gpg_check refresh remove_first : Bool) :
    Except Failure Bool × Trace :=
  let cmd := addCmd repo al description disable_gpg_check refresh
  match (if remove_first then remove_repo env (some repo) al
         else (Except.ok true, [])) with
  | (Except.error f, t) => (Except.error f, t)
  | (Except.ok _, t) =>
    let r := env cmd
    if r.rc = 0 then
      (Except.ok true, t ++ [cmd])
    else
      (Except.error (runFail r), t ++ [cmd])

/-- The `state` module parameter (`choices=['present', 'absent']`; any other
value is rejected by the host framework before `main`'s body runs). -/
inductive RState where
  | present
  | absent
deriving DecidableEq

/-- The module parameters handed to `main` by the host framework. -/
structure Params where
  name : Option String
  repo : Option String
  state : RState
  description : Option String
  disable_gpg_check : Bool
  refresh : Bool

/-- The run-time parameter checks at the top of `main`, in source order; the
first failing check's message, or `none` when validation passes. -/
def validationError (p : Params) : Option String :=
  if p.state = RState.present ∧ truthy p.repo = false then
    some "Module option state=present requires repo"
  else if p.state = RState.absent ∧ truthy p.repo = false ∧ truthy p.name = false then
    some "Alias or repo parameter required when state=absent"
  else if truthy p.repo = true ∧ endsRepo p.repo = true then
    (if truthy p.name = true then
      some "Incompatible option: \x27name\x27. Do not use name when adding repo files"
    else none)
  else
    (if truthy p.name = false ∧ p.state = RState.present then
      some "Name required when adding non-repo files:"
    else none)

/-- The `**kwargs` dictionary `main` passes to `repo_exists`:
`url=repo, alias=name` when `repo and repo.endswith('.repo') or name`, else
just `url=repo`. -/
def mainKwargs (p : Params) : Kwargs :=
  if (truthy p.repo = true ∧ endsRepo p.repo = true) ∨ truthy p.name = true then
    [("url", p.repo), ("alias", p.name)]
  else
    [("url", p.repo)]

/-- How a run terminates: `module.exit_json` (with the `name` field present
exactly on the `exit_unchanged` path) or `module.fail_json`. -/
inductive Outcome where
  | exited (changed : Bool) (repo : Option String) (state : RState)
      (name : Option (Option String))
  | fail (f : Failure)
deriving DecidableEq

/-- `main()`: validate parameters, query via `repo_exists`, then branch on the
desired state; `p.repo.getD ""` at the `modify_repo` call site is safe because
validation guarantees a truthy `repo` whenever `state=present`. -/
def main (env : Env) (parse : Parse) (p : Params) : Outcome × Trace :=
  match validationError p with
  | some m => (Outcome.fail (mkMsgFail m), [])
  | none =>
    match repo_exists env parse (mainKwargs p) with
    | (Except.error f, t) => (Outcome.fail f, t)
    | (Except.ok (ex, mod), t) =>
      match p.state with
      | RState.present =>
        if ex && !mod then
          (Outcome.exited false p.repo p.state (some p.name), t)
        else
          match modify_repo env (p.repo.getD "") p.name p.description
              p.disable_gpg_check p.refresh mod with
          | (Except.error f, t2) => (Outcome.fail f, t ++ t2)
          | (Except.ok ch, t2) => (Outcome.exited ch p.repo p.state none, t ++ t2)
      | RState.absent =>
        if !ex then
          (Outcome.exited false p.repo p.state (some p.name), t)
        else
          match remove_repo env p.repo p.name with
          | (Except.error f, t2) => (Outcome.fail f, t ++ t2)
          | (Except.ok ch, t2) => (Outcome.exited ch p.repo p.state none, t ++ t2)

/-! ### Concrete fixtures for counterexamples and witnesses -/

/-- An environment answering every command with the same result. -/
def constEnv (r : CmdResult) : Env := fun _ => r

/-- An existing entry whose `alias`/`url` match the `pPresent` descriptor up to
a trailing slash. -/
def entryU : RepoEntry := ⟨"a", "A", "99", "1", "1", "1", "http://u/"⟩

/-- An existing entry whose `url` differs from the `pPresent` descriptor. -/
def entryX : RepoEntry := ⟨"a", "A", "99", "1", "1", "1", "http://x"⟩

/-- A second, distinct existing entry. -/
def entryY : RepoEntry := ⟨"b", "B", "90", "1", "0", "1", "http://y"⟩

/-- Every command succeeds with stdout `"S"` and empty stderr. -/
def envOkS : Env := constEnv ⟨0, "S", ""⟩

def parseOne : Parse := fun _ => [entryU]

def parseDiff : Parse := fun _ => [entryX]

def parseTwo : Parse := fun _ => [entryX, entryY]

def parseEmpty : Parse := fun _ => []

/-- `state=present`, `repo=http://u`, `name=a`, defaults otherwise. -/
def pPresent : Params := ⟨some "a", some "http://u", RState.present, none, false, true⟩

/-- A `repo_exists` keyword dictionary supplying a name, an alias and a url. -/
def kwNAU : Kwargs := [("alias", some "al"), ("name", some "n"), ("url", some "u")]


/-! ### Helper lemmas -/

theorem parse_repos_trace (env : Env) (parse : Parse) (ident : String) :
    (_parse_repos env parse ident).2 = [zypperLr ident] := by
  unfold _parse_repos
  dsimp only
  split
  · rfl
  · split <;> rfl

theorem truthy_pyOr (a b : Option String) :
    truthy (pyOr a b) = (truthy a || truthy b) := by
  unfold pyOr
  cases h : truthy a <;> simp [h]

theorem pyOr_of_truthy {a : Option String} (b : Option String)
    (h : truthy a = true) : pyOr a b = a := by
  unfold pyOr; rw [h]; rfl

theorem pyOr_of_falsy {a : Option String} (b : Option String)
    (h : truthy a = false) : pyOr a b = b := by
  unfold pyOr; rw [h]; rfl

theorem lookup_mem {β : Type} {l : List (String × β)} {k : String}
    {v : β} (h : l.lookup k = some v) : (k, v) ∈ l := by
  induction l with
  | nil => simp [List.lookup] at h
  | cons a as ih =>
    obtain ⟨k2, v2⟩ := a
    rw [List.lookup_cons] at h
    split at h
    · injection h with hv
      rename_i heq
      have hkk : k = k2 := by simpa using heq
      subst hkk
      subst hv
      exact List.mem_cons_self _ _
    · exact List.mem_cons_of_mem _ (ih h)

theorem repo_exists_trace (env : Env) (parse : Parse) (kw : Kwargs) :
    (repo_exists env parse kw).2 =
      if truthy (resolveToken kw) then
        [zypperLr ((resolveToken kw).getD "")]
      else [] := by
  unfold repo_exists
  dsimp only
  split
  · rcases h : _parse_repos env parse ((resolveToken kw).getD "") with ⟨res, t⟩
    have ht : t = [zypperLr ((resolveToken kw).getD "")] := by
      have h2 := parse_repos_trace env parse ((resolveToken kw).getD "")
      rw [h] at h2
      exact h2
    cases res with
    | error f => simpa using ht
    | ok repos =>
      cases repos with
      | nil => simpa using ht
      | cons r rs => cases rs <;> simpa using ht
  · rfl

/-! ### C5: query behaviour by exit code -/

/-- C5: `_parse_repos` returns the parsed entry list when zypper exits with
code 0, returns the empty list when it exits with code 6 (no repositories
defined, a non-error outcome), and for every other exit code fails fatally;
it succeeds exactly when the exit code is 0 or 6, and the failure payload
reports the exit code together with the command's non-empty stdout and
stderr as diagnostic context. -/
theorem parse_repos_exit_cases (env : Env) (parse : Parse) (ident : String) :
    ((env (zypperLr ident)).rc = 0 →
      (_parse_repos env parse ident).1 =
        Except.ok (parse (env (zypperLr ident)).stdout)) ∧
    ((env (zypperLr ident)).rc = 6 →
      (_parse_repos env parse ident).1 = Except.ok []) ∧
    ((env (zypperLr ident)).rc ≠ 0 → (env (zypperLr ident)).rc ≠ 6 →
      (_parse_repos env parse ident).1 =
        Except.error (parseReposFailure (zypperLr ident) (env (zypperLr ident)))) ∧
    ((∃ l, (_parse_repos env parse ident).1 = Except.ok l) ↔
      ((env (zypperLr ident)).rc = 0 ∨ (env (zypperLr ident)).rc = 6)) ∧
    (∀ r : CmdResult,
      (parseReposFailure (zypperLr ident) r).zypper_exit_code = some r.rc ∧
      (r.stdout ≠ "" → (parseReposFailure (zypperLr ident) r).stdout = some r.stdout) ∧
      (r.stderr ≠ "" → (parseReposFailure (zypperLr ident) r).stderr = some r.stderr)) := by
  refine ⟨?_, ?_, ?_, ?_, ?_⟩
  · intro h
    unfold _parse_repos
    simp [h]
  · intro h
    unfold _parse_repos
    simp [h]
  · intro h0 h6
    unfold _parse_repos
    simp [h0, h6]
  · constructor
    · rintro ⟨l, hl⟩
      by_cases h0 : (env (zypperLr ident)).rc = 0
      · exact Or.inl h0
      · by_cases h6 : (env (zypperLr ident)).rc = 6
        · exact Or.inr h6
        · exfalso
          unfold _parse_repos at hl
          simp [h0, h6] at hl
    · rintro (h | h)
      · exact ⟨parse (env (zypperLr ident)).stdout, by unfold _parse_repos; simp [h]⟩
      · exact ⟨[], by unfold _parse_repos; simp [h]⟩
  · intro r
    refine ⟨rfl, ?_, ?_⟩ <;> intro h <;> simp [parseReposFailure, h]

/-- Witness for `parse_repos_exit_cases` at a concrete non-whitelisted exit
code. -/
theorem parse_repos_exit_cases_witness :
    (constEnv ⟨4, "out", "err"⟩ (zypperLr "i")).rc ≠ 0 ∧
    (constEnv ⟨4, "out", "err"⟩ (zypperLr "i")).rc ≠ 6 ∧
    (_parse_repos (constEnv ⟨4, "out", "err"⟩) parseEmpty "i").1 =
      Except.error (parseReposFailure (zypperLr "i")
        (constEnv ⟨4, "out", "err"⟩ (zypperLr "i"))) :=
  ⟨by decide, by decide,
    (parse_repos_exit_cases (constEnv ⟨4, "out", "err"⟩) parseEmpty "i").2.2.1
      (by decide) (by decide)⟩

/-! ### C1: identity token priority -/

/-- C1 counterexample: a descriptor supplying both an alias and a name is
queried with the name as identity token, not the alias — the resolution is
not alias-first. -/
theorem repo_exists_alias_first_cex :
    (repo_exists envOkS parseEmpty kwNAU).2 = [zypperLr "n"] ∧
    (repo_exists envOkS parseEmpty kwNAU).2 ≠ [zypperLr "al"] := by
  constructor
  · rfl
  · decide

/-- C1 (amended): in `repo_exists` the identity token used to scope the query
is resolved by priority name (if present and truthy), then alias, then url:
a truthy name always scopes the query, a truthy alias scopes it when the name
is falsy, and the url scopes it when both are falsy. -/
theorem repo_exists_token_priority (env : Env) (parse : Parse) (kw : Kwargs)
    (n a u : String) :
    (kwGet kw "name" = some n → n ≠ "" →
      (repo_exists env parse kw).2 = [zypperLr n]) ∧
    (truthy (kwGet kw "name") = false → kwGet kw "alias" = some a → a ≠ "" →
      (repo_exists env parse kw).2 = [zypperLr a]) ∧
    (truthy (kwGet kw "name") = false → truthy (kwGet kw "alias") = false →
      kwGet kw "url" = some u → u ≠ "" →
      (repo_exists env parse kw).2 = [zypperLr u]) := by
  refine ⟨?_, ?_, ?_⟩
  · intro hn hne
    have ht : truthy (kwGet kw "name") = true := by
      rw [hn]; simpa [truthy] using hne
    have hres : resolveToken kw = some n := by
      unfold resolveToken
      rw [pyOr_of_truthy _ ht, hn]
    rw [repo_exists_trace, hres]
    simp [truthy, hne]
  · intro hf ha hae
    have hta : truthy (kwGet kw "alias") = true := by
      rw [ha]; simpa [truthy] using hae
    have hres : resolveToken kw = some a := by
      unfold resolveToken
      rw [pyOr_of_falsy _ hf, pyOr_of_truthy _ hta, ha]
    rw [repo_exists_trace, hres]
    simp [truthy, hae]
  · intro hf1 hf2 hu hue
    have hres : resolveToken kw = some u := by
      unfold resolveToken
      rw [pyOr_of_falsy _ hf1, pyOr_of_falsy _ hf2, hu]
    rw [repo_exists_trace, hres]
    simp [truthy, hue]

/-- Witness for `repo_exists_token_priority`: the `kwNAU` dictionary supplies
name, alias and url, and the query is scoped to the name. -/
theorem repo_exists_token_priority_witness :
    kwGet kwNAU "name" = some "n" ∧ "n" ≠ "" ∧
    (repo_exists envOkS parseEmpty kwNAU).2 = [zypperLr "n"] :=
  ⟨rfl, by decide,
    (repo_exists_token_priority envOkS parseEmpty kwNAU "n" "al" "u").1 rfl
      (by decide)⟩

/-! ### C10: None comparison values compare as the empty string -/

/-- C10: in the difference check, a comparison attribute supplied with value
`None` is compared as the empty string: when the comparison dictionary holds
`none` under a key that is an actual attribute of the existing entry, and
that attribute is non-empty after stripping trailing slashes, `repo_changes`
reports a difference (so such a repository is reported as differing on every
run). -/
theorem repo_changes_none_as_empty (entry : RepoEntry) (kw : Kwargs)
    (k : String) (v : String)
    (hk : kw.lookup k = some none)
    (hv : entry.items.lookup k = some v)
    (hne : rstripSlash v ≠ "") :
    repo_changes entry kw = true := by
  unfold repo_changes
  split
  · rfl
  · apply List.any_eq_true.mpr
    refine ⟨(k, v), lookup_mem hv, ?_⟩
    rw [hk]
    have h1 : pyOrS v "" = v := by
      unfold pyOrS
      split
      · rename_i hveq
        rw [hveq]
      · rfl
    simp only [Option.isSome_some, Bool.true_and, Option.getD_some, h1]
    simpa [orEmpty, bne_iff_ne, rstripSlash] using hne

/-- Witness for `repo_changes_none_as_empty`: the kwargs built for a `.repo`
URI without a name hold `alias = none`, and an existing entry with alias
`"a"` is reported as differing. -/
theorem repo_changes_none_as_empty_witness :
    ([("url", some "http://u"), ("alias", (none : Option String))].lookup "alias"
        = some none) ∧
    entryU.items.lookup "alias" = some "a" ∧
    rstripSlash "a" ≠ "" ∧
    repo_changes entryU [("url", some "http://u"), ("alias", none)] = true :=
  ⟨rfl, rfl, by decide,
    repo_changes_none_as_empty entryU
      [("url", some "http://u"), ("alias", none)] "alias" "a" rfl rfl (by decide)⟩

/-! ### C9: the remove operation -/

/-- C9: `remove_repo` invokes `zypper rr` with the alias when the alias is
truthy and otherwise with the URI, executes exactly that one command, returns
`changed = true` exactly when the command exits with code 0, and every
non-zero exit code is a fatal error raised by the command-execution layer's
strict-check mode (`check_rc=True`). -/
theorem remove_repo_spec (env : Env) (rp al : Option String) :
    removeCmd rp al =
      [some "/usr/bin/zypper", some "rr", if truthy al then al else rp] ∧
    (remove_repo env rp al).2 = [removeCmd rp al] ∧
    ((remove_repo env rp al).1 = Except.ok true ↔
      (env (removeCmd rp al)).rc = 0) ∧
    ((env (removeCmd rp al)).rc ≠ 0 →
      (remove_repo env rp al).1 =
        Except.error (checkRcFail (removeCmd rp al) (env (removeCmd rp al)))) := by
  refine ⟨?_, ?_, ?_, ?_⟩
  · unfold removeCmd
    split <;> rfl
  · unfold remove_repo
    dsimp only
    split <;> rfl
  · constructor
    · intro h
      by_contra hrc
      unfold remove_repo at h
      simp [hrc] at h
    · intro h
      unfold remove_repo
      simp [h]
  · intro h
    unfold remove_repo
    simp [h]

/-- Witness for `remove_repo_spec`: a zero exit code yields `changed = true`. -/
theorem remove_repo_spec_witness :
    (constEnv ⟨0, "", ""⟩ (removeCmd (some "http://u") (some "a"))).rc = 0 ∧
    (remove_repo (constEnv ⟨0, "", ""⟩) (some "http://u") (some "a")).1 =
      Except.ok true :=
  ⟨rfl,
    ((remove_repo_spec (constEnv ⟨0, "", ""⟩) (some "http://u") (some "a")).2.2.1).mpr
      rfl⟩

/-! ### C8: alias argument on the add command -/

/-- C8: the add command vector appends an explicit alias argument after the
URI exactly when the URI does not end in `.repo`; for every URI ending in
`.repo` the command ends with the URI and no alias argument is appended. -/
theorem addCmd_alias_iff (repo : String) (al d : Option String) (g rf : Bool) :
    (strEndsWith repo ".repo" = false →
      addCmd repo al d g rf = addCmdBase repo d g rf ++ [al]) ∧
    (strEndsWith repo ".repo" = true →
      addCmd repo al d g rf = addCmdBase repo d g rf) := by
  constructor <;> intro h <;> unfold addCmd addCmdBase <;> simp [h]

/-- Witness for `addCmd_alias_iff` on a non-`.repo` and a `.repo` URI. -/
theorem addCmd_alias_iff_witness :
    strEndsWith "http://u" ".repo" = false ∧
    addCmd "http://u" (some "a") none false true =
      addCmdBase "http://u" none false true ++ [some "a"] ∧
    strEndsWith "http://u/f.repo" ".repo" = true ∧
    addCmd "http://u/f.repo" (some "a") none false true =
      addCmdBase "http://u/f.repo" none false true :=
  ⟨by decide,
    (addCmd_alias_iff "http://u" (some "a") none false true).1 (by decide),
    by decide,
    (addCmd_alias_iff "http://u/f.repo" (some "a") none false true).2 (by decide)⟩

/-! ### C7: remove runs before add in modify -/

/-- Full characterization of `modify_repo` with `remove_first = true`, by
cases on the exit code of the remove command. -/
theorem modify_repo_true_eq (env : Env) (repo : String)
    (al d : Option String) (g rf : Bool) :
    modify_repo env repo al d g rf true =
      if (env (removeCmd (some repo) al)).rc ≠ 0 then
        (Except.error (checkRcFail (removeCmd (some repo) al)
            (env (removeCmd (some repo) al))),
         [removeCmd (some repo) al])
      else if (env (addCmd repo al d g rf)).rc = 0 then
        (Except.ok true, [removeCmd (some repo) al, addCmd repo al d g rf])
      else
        (Except.error (runFail (env (addCmd repo al d g rf))),
         [removeCmd (some repo) al, addCmd repo al d g rf]) := by
  unfold modify_repo remove_repo
  by_cases h : (env (removeCmd (some repo) al)).rc = 0 <;> simp [h]

/-- C7: with `remove_first = true`, `modify_repo` executes the remove command
first, unconditionally: the first executed command is always `zypper rr`, the
add command is issued only after the remove completed with exit code 0, and
when the remove fails nothing further is executed. -/
theorem modify_repo_removes_first (env : Env) (repo : String)
    (al d : Option String) (g rf : Bool) :
    (modify_repo env repo al d g rf true).2.head? =
      some (removeCmd (some repo) al) ∧
    ((env (removeCmd (some repo) al)).rc = 0 →
      (modify_repo env repo al d g rf true).2 =
        [removeCmd (some repo) al, addCmd repo al d g rf]) ∧
    ((env (removeCmd (some repo) al)).rc ≠ 0 →
      modify_repo env repo al d g rf true =
        (Except.error (checkRcFail (removeCmd (some repo) al)
            (env (removeCmd (some repo) al))),
         [removeCmd (some repo) al])) := by
  rw [modify_repo_true_eq]
  refine ⟨?_, ?_, ?_⟩
  · split
    · rfl
    · split <;> rfl
  · intro h
    rw [if_neg (by simpa using h)]
    split <;> rfl
  · intro h
    rw [if_pos h]

/-- Witness for `modify_repo_removes_first`: a successful remove is followed
by exactly the add command. -/
theorem modify_repo_removes_first_witness :
    (constEnv ⟨0, "", ""⟩ (removeCmd (some "http://u") (some "a"))).rc = 0 ∧
    (modify_repo (constEnv ⟨0, "", ""⟩) "http://u" (some "a") none false true
        true).2 =
      [removeCmd (some "http://u") (some "a"),
       addCmd "http://u" (some "a") none false true] :=
  ⟨rfl,
    (modify_repo_removes_first (constEnv ⟨0, "", ""⟩) "http://u" (some "a") none
        false true).2.1 rfl⟩

/-! ### C6: parameter validation precedes all external commands -/

/-- C6: the validation checks fail exactly when (state=present without a
URI), or (state=absent without URI and name), or (the URI ends in `.repo` and
a name is also supplied), or (the URI does not end in `.repo`, state=present,
and no name is supplied); and whenever validation fails, the run fails with
that validation message having executed no external command at all. -/
theorem main_validation_complete (env : Env) (parse : Parse) (p : Params) :
    ((validationError p).isSome = true ↔
      ((p.state = RState.present ∧ truthy p.repo = false) ∨
       (p.state = RState.absent ∧ truthy p.repo = false ∧ truthy p.name = false) ∨
       (truthy p.repo = true ∧ endsRepo p.repo = true ∧ truthy p.name = true) ∨
       (truthy p.repo = true ∧ endsRepo p.repo = false ∧
         p.state = RState.present ∧ truthy p.name = false))) ∧
    (∀ m, validationError p = some m →
      main env parse p = (Outcome.fail (mkMsgFail m), [])) := by
  constructor
  · cases hs : p.state <;> cases h1 : truthy p.repo <;>
      cases h2 : endsRepo p.repo <;> cases h3 : truthy p.name <;>
      simp [validationError, hs, h1, h2, h3]
  · intro m hm
    unfold main
    rw [hm]

/-- Witness for `main_validation_complete`: `state=present` without a repo
fails before any external command. -/
theorem main_validation_complete_witness :
    validationError ⟨none, none, RState.present, none, false, true⟩ =
      some "Module option state=present requires repo" ∧
    main envOkS parseEmpty ⟨none, none, RState.present, none, false, true⟩ =
      (Outcome.fail (mkMsgFail "Module option state=present requires repo"), []) :=
  ⟨rfl, (main_validation_complete envOkS parseEmpty
      ⟨none, none, RState.present, none, false, true⟩).2 _ rfl⟩

/-! ### C4: ambiguous identity is fatal -/

/-- C4: when the query returns more than one matching repository, the run
aborts with the fatal ambiguous-identity error whose message lists all the
matches, and the only external command executed during the whole run is the
query itself: no add or remove command is ever executed. -/
theorem main_ambiguous_fatal (env : Env) (parse : Parse) (p : Params)
    (r1 r2 : RepoEntry) (rs : List RepoEntry)
    (hval : validationError p = none)
    (htok : truthy (resolveToken (mainKwargs p)) = true)
    (hq : ∀ i, (env (zypperLr i)).rc = 0 ∧
      parse (env (zypperLr i)).stdout = r1 :: r2 :: rs) :
    main env parse p =
      (Outcome.fail (mkMsgFail (moreThanOneMsg
          ((resolveToken (mainKwargs p)).getD "") (r1 :: r2 :: rs))),
       [zypperLr ((resolveToken (mainKwargs p)).getD "")]) := by
  obtain ⟨hrc, hst⟩ := hq ((resolveToken (mainKwargs p)).getD "")
  have hpr : _parse_repos env parse ((resolveToken (mainKwargs p)).getD "") =
      (Except.ok (r1 :: r2 :: rs),
       [zypperLr ((resolveToken (mainKwargs p)).getD "")]) := by
    unfold _parse_repos
    simp [hrc, hst]
  have hre : repo_exists env parse (mainKwargs p) =
      (Except.error (mkMsgFail (moreThanOneMsg
          ((resolveToken (mainKwargs p)).getD "") (r1 :: r2 :: rs))),
       [zypperLr ((resolveToken (mainKwargs p)).getD "")]) := by
    unfold repo_exists
    rw [if_pos htok, hpr]
  unfold main
  rw [hval, hre]

/-- Witness for `main_ambiguous_fatal`: two matches abort the run after the
single query. -/
theorem main_ambiguous_fatal_witness :
    validationError pPresent = none ∧
    truthy (resolveToken (mainKwargs pPresent)) = true ∧
    main envOkS parseTwo pPresent =
      (Outcome.fail (mkMsgFail (moreThanOneMsg
          ((resolveToken (mainKwargs pPresent)).getD "") [entryX, entryY])),
       [zypperLr ((resolveToken (mainKwargs pPresent)).getD "")]) :=
  ⟨rfl, rfl,
    main_ambiguous_fatal envOkS parseTwo pPresent entryX entryY [] rfl rfl
      (fun _ => ⟨rfl, rfl⟩)⟩

/-! ### C3: number of external commands per run -/

theorem remove_repo_trace (env : Env) (rp al : Option String) :
    (remove_repo env rp al).2 = [removeCmd rp al] := by
  unfold remove_repo
  dsimp only
  split <;> rfl

theorem repo_exists_trace_le (env : Env) (parse : Parse) (kw : Kwargs) :
    (repo_exists env parse kw).2.length ≤ 1 := by
  rw [repo_exists_trace]
  split <;> simp

theorem modify_repo_false_eq (env : Env) (repo : String)
    (al d : Option String) (g rf : Bool) :
    modify_repo env repo al d g rf false =
      if (env (addCmd repo al d g rf)).rc = 0 then
        (Except.ok true, [addCmd repo al d g rf])
      else
        (Except.error (runFail (env (addCmd repo al d g rf))),
         [addCmd repo al d g rf]) := by
  unfold modify_repo
  by_cases h : (env (addCmd repo al d g rf)).rc = 0 <;> simp [h]

theorem modify_repo_trace_le (env : Env) (repo : String) (al d : Option String)
    (g rf rm : Bool) : (modify_repo env repo al d g rf rm).2.length ≤ 2 := by
  cases rm with
  | false =>
    rw [modify_repo_false_eq]
    split <;> simp
  | true =>
    rw [modify_repo_true_eq]
    split
    · simp
    · split <;> simp

/-- C3 counterexample: a present-state run against an existing but differing
repository executes three external commands (the query, a remove and an add),
exceeding the claimed bound of two. -/
theorem main_at_most_two_cex :
    ¬ ((main envOkS parseDiff pPresent).2.length ≤ 2) := by decide

/-- C3 (amended): every run of the reconciler executes at most three external
commands in total — one query, optionally one remove, optionally one add. -/
theorem main_at_most_three (env : Env) (parse : Parse) (p : Params) :
    (main env parse p).2.length ≤ 3 := by
  have hq := repo_exists_trace_le env parse (mainKwargs p)
  unfold main
  split
  · simp
  · split
    · rename_i f t hre
      rw [hre] at hq
      simpa using hq.trans (by norm_num)
    · rename_i ex mod t hre
      rw [hre] at hq
      simp only at hq
      cases p.state with
      | present =>
        dsimp only
        split
        · simpa using hq.trans (by norm_num)
        · split
          · rename_i f t2 hmod
            have hm := modify_repo_trace_le env (p.repo.getD "") p.name
              p.description p.disable_gpg_check p.refresh mod
            rw [hmod] at hm
            simp only at hm
            simp [List.length_append]
            omega
          · rename_i ch t2 hmod
            have hm := modify_repo_trace_le env (p.repo.getD "") p.name
              p.description p.disable_gpg_check p.refresh mod
            rw [hmod] at hm
            simp only at hm
            simp [List.length_append]
            omega
      | absent =>
        dsimp only
        split
        · simpa using hq.trans (by norm_num)
        · split
          · rename_i f t2 hrem
            have hm := remove_repo_trace env p.repo p.name
            rw [hrem] at hm
            simp only at hm
            simp [List.length_append, hm]
            omega
          · rename_i ch t2 hrem
            have hm := remove_repo_trace env p.repo p.name
            rw [hrem] at hm
            simp only at hm
            simp [List.length_append, hm]
            omega

/-! ### C2: idempotent reconciliation on an exactly matching entry -/

theorem pyOrS_empty (sx : String) : pyOrS sx "" = sx := by
  unfold pyOrS
  split
  · rename_i h
    rw [h]
  · rfl

theorem resolveToken_two (u a : Option String) :
    resolveToken [("url", u), ("alias", a)] = pyOr a u := rfl

theorem repo_changes_two_false (entry : RepoEntry) (u a : Option String)
    (hurl : rstripSlash entry.url = rstripSlash (orEmpty u))
    (halias : rstripSlash entry.«alias» = rstripSlash (orEmpty a)) :
    repo_changes entry [("url", u), ("alias", a)] = false := by
  unfold repo_changes
  simp [RepoEntry.items, RepoEntry.keys, REPO_OPTS, List.lookup_cons,
    pyOrS_empty, hurl, halias]

theorem repo_exists_single (env : Env) (parse : Parse) (kw : Kwargs)
    (entry : RepoEntry)
    (htk : truthy (resolveToken kw) = true)
    (hrc : (env (zypperLr ((resolveToken kw).getD ""))).rc = 0)
    (hst : parse (env (zypperLr ((resolveToken kw).getD ""))).stdout = [entry]) :
    repo_exists env parse kw =
      (Except.ok (true, repo_changes entry kw),
       [zypperLr ((resolveToken kw).getD "")]) := by
  have hpr : _parse_repos env parse ((resolveToken kw).getD "") =
      (Except.ok [entry], [zypperLr ((resolveToken kw).getD "")]) := by
    unfold _parse_repos
    simp [hrc, hst]
  unfold repo_exists
  rw [if_pos htk, hpr]

/-- C2: for a `state=present` descriptor passing validation, when the query
returns exactly one entry whose supplied comparison attributes (url and
alias) equal the descriptor's values up to stripping trailing slashes on
both sides, `repo_exists` returns `(exists, differs) = (true, false)` and the
whole run reports `changed=false`, executing only the single query command —
no add and no remove. -/
theorem main_present_match_unchanged (env : Env) (parse : Parse) (p : Params)
    (entry : RepoEntry)
    (hstate : p.state = RState.present)
    (hval : validationError p = none)
    (hq : ∀ i, (env (zypperLr i)).rc = 0 ∧
      parse (env (zypperLr i)).stdout = [entry])
    (hurl : rstripSlash entry.url = rstripSlash (orEmpty p.repo))
    (halias : rstripSlash entry.«alias» = rstripSlash (orEmpty p.name)) :
    repo_exists env parse (mainKwargs p) =
      (Except.ok (true, false), [zypperLr ((pyOr p.name p.repo).getD "")]) ∧
    main env parse p =
      (Outcome.exited false p.repo RState.present (some p.name),
       [zypperLr ((pyOr p.name p.repo).getD "")]) := by
  have hr : truthy p.repo = true := by
    by_contra hf
    have hf2 : truthy p.repo = false := by simpa using hf
    unfold validationError at hval
    rw [if_pos ⟨hstate, hf2⟩] at hval
    exact Option.noConfusion hval
  have hA : (truthy p.repo = true ∧ endsRepo p.repo = true) ∨
      truthy p.name = true := by
    by_cases he : endsRepo p.repo = true
    · exact Or.inl ⟨hr, he⟩
    · right
      by_contra hn
      have hn2 : truthy p.name = false := by simpa using hn
      have he2 : endsRepo p.repo = false := by simpa using he
      have nc1 : ¬ (p.state = RState.present ∧ truthy p.repo = false) := by
        rintro ⟨_, h⟩
        rw [hr] at h
        exact Bool.noConfusion h
      have nc2 : ¬ (p.state = RState.absent ∧ truthy p.repo = false ∧
          truthy p.name = false) := by
        rintro ⟨hs, _⟩
        rw [hstate] at hs
        exact RState.noConfusion hs
      have nc3 : ¬ (truthy p.repo = true ∧ endsRepo p.repo = true) := by
        rintro ⟨_, h⟩
        rw [he2] at h
        exact Bool.noConfusion h
      unfold validationError at hval
      rw [if_neg nc1, if_neg nc2, if_neg nc3, if_pos ⟨hn2, hstate⟩] at hval
      exact Option.noConfusion hval
  have hkw : mainKwargs p = [("url", p.repo), ("alias", p.name)] := by
    unfold mainKwargs
    rw [if_pos hA]
  have htokv : resolveToken (mainKwargs p) = pyOr p.name p.repo := by
    rw [hkw, resolveToken_two]
  have htk : truthy (resolveToken (mainKwargs p)) = true := by
    rw [htokv, truthy_pyOr, hr, Bool.or_true]
  have hch : repo_changes entry (mainKwargs p) = false := by
    rw [hkw]
    exact repo_changes_two_false entry p.repo p.name hurl halias
  have hre : repo_exists env parse (mainKwargs p) =
      (Except.ok (true, false), [zypperLr ((pyOr p.name p.repo).getD "")]) := by
    have h1 := repo_exists_single env parse (mainKwargs p) entry htk
      (hq ((resolveToken (mainKwargs p)).getD "")).1
      (hq ((resolveToken (mainKwargs p)).getD "")).2
    rw [hch, htokv] at h1
    exact h1
  refine ⟨hre, ?_⟩
  unfold main
  rw [hval, hre, hstate]
  rfl

/-- Witness for `main_present_match_unchanged`: an existing entry matching
the descriptor up to a trailing slash on the url leaves the run unchanged
after a single query. -/
theorem main_present_match_unchanged_witness :
    validationError pPresent = none ∧
    repo_exists envOkS parseOne (mainKwargs pPresent) =
      (Except.ok (true, false),
       [zypperLr ((pyOr pPresent.name pPresent.repo).getD "")]) ∧
    main envOkS parseOne pPresent =
      (Outcome.exited false pPresent.repo RState.present (some pPresent.name),
       [zypperLr ((pyOr pPresent.name pPresent.repo).getD "")]) := by
  have h := main_present_match_unchanged envOkS parseOne pPresent entryU rfl rfl
    (fun _ => ⟨rfl, rfl⟩) (by decide) (by decide)
  exact ⟨rfl, h.1, h.2⟩

end ZyppRepo
